import Mathlib

/-!
Verification of the core logic of the ioBroker Grohe Smarthome adapter.

Shallow embedding of the relevant source functions:
  - `src/lib/groheClient.js`: `setApplianceCommand`, `setRefreshToken`, `request`
  - `src/lib/auth.js`: `_applyTokens`, `refresh`, `getAccessToken`, `login`,
    `_doLogin`, `_getWithJar`, `_storeCookiesFromResponse`
  - `src/main.js`: `onReady` (interval setup) and `pollDevices` /
    `_processAppliance` / `_updateSenseGuard` (per-cycle endpoint calls)

JavaScript numbers that matter here are integers, modelled as `Int`/`Nat`.
Absent or falsy JSON fields are modelled as `Option` values (JS `undefined`,
`null`, `''` and `0` are falsy; where `0` is falsy that is made explicit).
-/

namespace GroheSpec

/-- JS `x || d` for an optional integer field: the field being absent and the
value `0` are both falsy, so both fall back to the default `d`. -/
def jsOrNum (v : Option Int) (d : Int) : Int :=
  match v with
  | none => d
  | some x => if x = 0 then d else x

/-- Test that the first list is a leading segment of the second. -/
def charsLead : List Char → List Char → Bool
  | [], _ => true
  | _ :: _, [] => false
  | p :: ps, c :: cs => p == c && charsLead ps cs

/-- JS / RFC `startsWith`, computed on the character lists. -/
def strLeads (s pre : String) : Bool :=
  charsLead pre.data s.data

/-- JS / RFC `endsWith`, computed on the character lists. -/
def strTrails (s suf : String) : Bool :=
  charsLead suf.data.reverse s.data.reverse

/-- Drop the first `n` characters of a string. -/
def strDropChars (s : String) (n : Nat) : String :=
  ⟨s.data.drop n⟩

/-- ASCII whitespace, as trimmed by JS `String.prototype.trim` on the values
occurring here. -/
def isWs (c : Char) : Bool :=
  c == ' ' || c == '\t' || c == '\n' || c == '\r'

/-- JS `String.prototype.trim`, computed on the character lists. -/
def strTrim (s : String) : String :=
  ⟨((s.data.dropWhile isWs).reverse.dropWhile isWs).reverse⟩

/-! ## JSON objects and the spread merge used by `setApplianceCommand` -/

/-- JSON scalar values occurring in command objects. -/
inductive JVal where
  | jbool : Bool → JVal
  | jnum : Int → JVal
  | jstr : String → JVal
  | jnull : JVal
deriving DecidableEq

/-- A JSON object, as an association list with unique keys (lookup takes the
first match, mirroring JS property lookup). -/
abbrev JObj := List (String × JVal)

/-- JS object spread `Object.assign`-style merge: every key of `extra` takes
the value from `extra`, every other key of `base` keeps its value. Keys of
`base` overridden by `extra` are kept at the position of `extra`; for property
lookup this is equivalent to the JS spread result. -/
def spreadMerge (base extra : JObj) : JObj :=
  base.filter (fun p => (extra.lookup p.1).isNone) ++ extra

/-- The JSON document returned by the appliance `/command` endpoint:
a `command` object plus the remaining top-level fields
(`type`, `appliance_id`, `timestamp`, ...). -/
structure CommandDoc where
  command : JObj
  rest : JObj
deriving DecidableEq

/-- Embedding of `groheClient.setApplianceCommand` (src/lib/groheClient.js
126-133): GET the current command document (`current.data || \x7b\x7d`), merge the
caller fields into its `command` object with a spread, and POST the merged
document back. This function computes the POSTed body from the document the
GET returned. -/
def setApplianceCommandBody (current : Option CommandDoc) (commandFields : JObj) : CommandDoc :=
  let merged := current.getD ⟨[], []⟩
  { merged with command := spreadMerge merged.command commandFields }

theorem lookup_append {β : Type} (l1 l2 : List (String × β)) (k : String) :
    (l1 ++ l2).lookup k = ((l1.lookup k).or (l2.lookup k)) := by
  induction l1 with
  | nil => simp [List.lookup]
  | cons p t ih =>
    cases hb : (k == p.1) with
    | true => simp [List.lookup, hb]
    | false => simp [List.lookup, hb, ih]

theorem lookup_filter_isNone {β : Type} (l : List (String × β)) (q : JObj)
    (k : String) (hk : (q.lookup k).isNone) :
    (l.filter (fun p => (q.lookup p.1).isNone)).lookup k = l.lookup k := by
  induction l with
  | nil => simp
  | cons p t ih =>
    cases hb : (k == p.1) with
    | true =>
      have hkp : k = p.1 := by simpa using hb
      simp [List.filter, ← hkp, hk, List.lookup, hb, ih]
    | false =>
      by_cases hq : (q.lookup p.1).isNone
      · simp [List.filter, hq, List.lookup, hb, ih]
      · simp [List.filter, hq, List.lookup, hb, ih]

theorem lookup_filter_none {β : Type} (l : List (String × β)) (q : JObj)
    (k : String) (hk : ¬ (q.lookup k).isNone) :
    (l.filter (fun p => (q.lookup p.1).isNone)).lookup k = none := by
  induction l with
  | nil => simp
  | cons p t ih =>
    cases hb : (k == p.1) with
    | true =>
      have hkp : k = p.1 := by simpa using hb
      simp [List.filter, ← hkp, hk, List.lookup, hb, ih]
    | false =>
      by_cases hq : (q.lookup p.1).isNone
      · simp [List.filter, hq, List.lookup, hb, ih]
      · simp [List.filter, hq, List.lookup, hb, ih]

theorem spreadMerge_lookup (base extra : JObj) (k : String) :
    (spreadMerge base extra).lookup k = ((extra.lookup k).or (base.lookup k)) := by
  unfold spreadMerge
  rw [lookup_append]
  cases hx : extra.lookup k with
  | none =>
    rw [lookup_filter_isNone base extra k (by simp [hx])]
    simp
  | some v =>
    rw [lookup_filter_none base extra k (by simp [hx])]
    simp

/-- C9: every per-device command write reads the current command document,
merges the caller fields into its `command` object and writes the merged
document back: every command field named by the caller takes the caller value,
every command field not named by the caller keeps its current value, and the
non-command top-level fields are written back unchanged. -/
theorem C9_setApplianceCommand_merge (current : CommandDoc) (fields : JObj) (k : String) :
    (∀ v, fields.lookup k = some v →
        (setApplianceCommandBody (some current) fields).command.lookup k = some v)
    ∧ (fields.lookup k = none →
        (setApplianceCommandBody (some current) fields).command.lookup k
          = current.command.lookup k)
    ∧ (setApplianceCommandBody (some current) fields).rest = current.rest := by
  refine ⟨fun v hv => ?_, fun hv => ?_, rfl⟩
  · simp [setApplianceCommandBody, spreadMerge_lookup, hv]
  · simp [setApplianceCommandBody, spreadMerge_lookup, hv]

/-- Closed instance of `C9_setApplianceCommand_merge`: the valve write merges
`valve_open` into a command object that also holds `measure_now`, keeping the
unrelated field. -/
theorem C9_setApplianceCommand_merge_witness :
    (setApplianceCommandBody
        (some ⟨[("valve_open", JVal.jbool true), ("measure_now", JVal.jbool false)],
               [("appliance_id", JVal.jstr "a1")]⟩)
        [("valve_open", JVal.jbool false)]).command.lookup "valve_open"
      = some (JVal.jbool false)
    ∧ (setApplianceCommandBody
        (some ⟨[("valve_open", JVal.jbool true), ("measure_now", JVal.jbool false)],
               [("appliance_id", JVal.jstr "a1")]⟩)
        [("valve_open", JVal.jbool false)]).command.lookup "measure_now"
      = some (JVal.jbool false) := by
  constructor
  · exact (C9_setApplianceCommand_merge
      ⟨[("valve_open", JVal.jbool true), ("measure_now", JVal.jbool false)],
       [("appliance_id", JVal.jstr "a1")]⟩
      [("valve_open", JVal.jbool false)] "valve_open").1 (JVal.jbool false) (by decide)
  · exact (C9_setApplianceCommand_merge
      ⟨[("valve_open", JVal.jbool true), ("measure_now", JVal.jbool false)],
       [("appliance_id", JVal.jstr "a1")]⟩
      [("valve_open", JVal.jbool false)] "measure_now").2.1 (by decide) |>.trans (by decide)

/-! ## Session engine (src/lib/auth.js) -/

/-- Session state owned by `GroheAuth` (src/lib/auth.js 29-36): access token,
refresh token and the unix-ms expiry instant. Absent or empty (falsy) tokens
are `none`. `expiresAt` starts at `0`. -/
structure AuthState where
  accessToken : Option String
  refreshToken : Option String
  expiresAt : Int
deriving DecidableEq

/-- A token endpoint response body. `access_token` and `refresh_token` are
`none` when the field is absent or empty (falsy). `expires_in` is `none` when
absent; the code also treats a present `0` as falsy. -/
structure TokenRespData where
  access_token : Option String
  refresh_token : Option String
  expires_in : Option Int
deriving DecidableEq

/-- Embedding of `GroheAuth._applyTokens` (src/lib/auth.js 441-448):
`accessToken` is overwritten with `data.access_token`; `refreshToken` is
overwritten only when `data.refresh_token` is truthy; the expiry instant is
`now + (expiresIn - 60) * 1000` ms with `expiresIn = data.expires_in || 3600`. -/
def applyTokens (s : AuthState) (now : Int) (d : TokenRespData) : AuthState :=
  { accessToken := d.access_token
    refreshToken :=
      match d.refresh_token with
      | some r => some r
      | none => s.refreshToken
    expiresAt := now + (jsOrNum d.expires_in 3600 - 60) * 1000 }

/-- Errors thrown by the session engine, one constructor per `throw` site. -/
inductive AuthErr where
  /-- "Not logged in – call login() first" (`getAccessToken`). -/
  | notLoggedIn : AuthErr
  /-- "No refresh token available" (`refresh`). -/
  | noRefreshToken : AuthErr
  /-- "Token refresh returned no access_token" (`refresh`). -/
  | refreshNoAccess : AuthErr
  /-- "Token response missing access_token/refresh_token" (`_exchangeOndusUrl`). -/
  | tokenRespInvalid : AuthErr
deriving DecidableEq

/-- Embedding of the decision logic of `GroheAuth.refresh` (src/lib/auth.js
342-367). The POST to the refresh endpoint is modelled by its response body
`d`; transport failures are outside this claim. -/
def refreshStep (s : AuthState) (now : Int) (d : TokenRespData) : Except AuthErr AuthState :=
  match s.refreshToken with
  | none => .error .noRefreshToken
  | some _ =>
    match d.access_token with
    | none => .error .refreshNoAccess
    | some _ => .ok (applyTokens s now d)

/-- Embedding of the decision logic of `GroheAuth._exchangeOndusUrl`
(src/lib/auth.js 315-337): the token response must carry both tokens, then
`_applyTokens` runs. -/
def exchangeOndusTokens (s : AuthState) (now : Int) (d : TokenRespData) :
    Except AuthErr AuthState :=
  match d.access_token, d.refresh_token with
  | some _, some _ => .ok (applyTokens s now d)
  | _, _ => .error .tokenRespInvalid

/-- Embedding of `GroheAuth.getAccessToken` (src/lib/auth.js 372-380). `d` is
the refresh-endpoint response used if a refresh happens. The result carries
the new session state, the returned token, and how many refresh calls were
made (0 or 1). The source throws immediately when no access token is cached,
before looking at the refresh token. -/
def getAccessToken (s : AuthState) (now : Int) (d : TokenRespData) :
    Except AuthErr (AuthState × String × Nat) :=
  match s.accessToken with
  | none => .error .notLoggedIn
  | some tok =>
    if s.expiresAt ≤ now then
      match refreshStep s now d with
      | .error e => .error e
      | .ok s2 => .ok (s2, s2.accessToken.getD tok, 1)
    else .ok (s, tok, 0)

/-- Embedding of `GroheClient.setRefreshToken` (src/lib/groheClient.js 34-37):
`this.auth.refreshToken = String(token || '').trim()`. A trimmed-empty result
is falsy, modelled as `none`. Nothing else in the session is touched. -/
def setRefreshToken (s : AuthState) (token : String) : AuthState :=
  { s with refreshToken := if strTrim token = "" then none else some (strTrim token) }

/-- C8: on every successful login token exchange and every successful renewal,
the expiry instant is `now + (lifetime - 60) seconds` (in ms), where the
lifetime is the `expires_in` value carried by the token response. -/
theorem C8_expiry_margin (s : AuthState) (now : Int) (d : TokenRespData)
    (e : Int) (s2 s3 : AuthState)
    (hd : d.expires_in = some e) (he : e ≠ 0)
    (hx : exchangeOndusTokens s now d = .ok s2)
    (hr : refreshStep s now d = .ok s3) :
    s2.expiresAt = now + (e - 60) * 1000 ∧ s3.expiresAt = now + (e - 60) * 1000 := by
  have hApply : (applyTokens s now d).expiresAt = now + (e - 60) * 1000 := by
    simp [applyTokens, jsOrNum, hd, he]
  constructor
  · cases ha : d.access_token with
    | none => simp [exchangeOndusTokens, ha] at hx
    | some a =>
      cases hrt : d.refresh_token with
      | none => simp [exchangeOndusTokens, ha, hrt] at hx
      | some r =>
        simp only [exchangeOndusTokens, ha, hrt] at hx
        cases hx
        exact hApply
  · cases hst : s.refreshToken with
    | none => simp [refreshStep, hst] at hr
    | some r0 =>
      cases ha : d.access_token with
      | none => simp [refreshStep, hst, ha] at hr
      | some a =>
        simp only [refreshStep, hst, ha] at hr
        cases hr
        exact hApply

/-- Closed instance of `C8_expiry_margin`: a response with lifetime 3600 s
yields expiry `now + 3540 s`. -/
theorem C8_expiry_margin_witness :
    (applyTokens ⟨some "a", some "r", 0⟩ 1000
        ⟨some "a2", some "r2", some 3600⟩).expiresAt = 1000 + (3600 - 60) * 1000 := by
  exact (C8_expiry_margin ⟨some "a", some "r", 0⟩ 1000 ⟨some "a2", some "r2", some 3600⟩
      3600 _ _ rfl (by decide) rfl rfl).1

/-- C10: when a successful token response lacks a truthy `expires_in`,
`_applyTokens` substitutes the default lifetime 3600 s, so the session is
populated (the refresh still succeeds) with expiry `now + 3540 s` rather than
failing or being treated as already expired. -/
theorem C10_default_lifetime (s : AuthState) (now : Int) (d : TokenRespData)
    (r a : String)
    (hd : d.expires_in = none ∨ d.expires_in = some 0)
    (hrt : s.refreshToken = some r) (ha : d.access_token = some a) :
    refreshStep s now d = .ok (applyTokens s now d)
    ∧ (applyTokens s now d).expiresAt = now + 3540 * 1000 := by
  constructor
  · simp [refreshStep, hrt, ha]
  · rcases hd with hd | hd <;> simp [applyTokens, jsOrNum, hd]

/-- Closed instance of `C10_default_lifetime`: a refresh response without
`expires_in` populates the session with expiry `now + 3540000` ms. -/
theorem C10_default_lifetime_witness :
    refreshStep ⟨some "a", some "r", 0⟩ 1000 ⟨some "a2", none, none⟩
      = .ok (applyTokens ⟨some "a", some "r", 0⟩ 1000 ⟨some "a2", none, none⟩)
    ∧ (applyTokens ⟨some "a", some "r", 0⟩ 1000 ⟨some "a2", none, none⟩).expiresAt
      = 1000 + 3540 * 1000 :=
  C10_default_lifetime ⟨some "a", some "r", 0⟩ 1000 ⟨some "a2", none, none⟩
    "r" "a2" (Or.inl rfl) rfl rfl

/-- C6 counterexample: with no cached access token but a present refresh
token, `getAccessToken` throws the not-logged-in error without calling
`refresh` at all, although a long-lived credential exists to renew from. The
claim predicts one `renew()` call and a returned renewed credential here. -/
theorem C6_counterexample :
    (AuthState.mk none (some "r") 0).accessToken = none
    ∧ (AuthState.mk none (some "r") 0).refreshToken = some "r"
    ∧ getAccessToken ⟨none, some "r", 0⟩ 5000 ⟨some "a2", some "r2", some 3600⟩
        = .error .notLoggedIn := by
  exact ⟨rfl, rfl, rfl⟩

/-- C6 (amended): `getAccessToken` returns the cached access token when one is
present and unexpired; when one is present but expired it performs exactly one
refresh and returns the refreshed token; it fails with the not-logged-in error
exactly when no access token is cached (even if a refresh token is held); and
an expired token with no refresh token fails with the no-refresh-token error. -/
theorem C6_getAccessToken_spec (s : AuthState) (now : Int) (d : TokenRespData)
    (tok r a2 : String) :
    (s.accessToken = some tok → now < s.expiresAt →
        getAccessToken s now d = .ok (s, tok, 0))
    ∧ (s.accessToken = some tok → s.expiresAt ≤ now → s.refreshToken = some r →
        d.access_token = some a2 →
        getAccessToken s now d = .ok (applyTokens s now d, a2, 1))
    ∧ (s.accessToken = none ↔ getAccessToken s now d = .error .notLoggedIn)
    ∧ (s.accessToken = some tok → s.expiresAt ≤ now → s.refreshToken = none →
        getAccessToken s now d = .error .noRefreshToken) := by
  refine ⟨fun hacc hlt => ?_, fun hacc hle hrt hda => ?_, ⟨fun hacc => ?_, fun hres => ?_⟩,
    fun hacc hle hrt => ?_⟩
  · simp [getAccessToken, hacc, not_le.mpr hlt]
  · simp [getAccessToken, hacc, hle, refreshStep, hrt, hda, applyTokens]
  · simp [getAccessToken, hacc]
  · cases hacc : s.accessToken with
    | none => rfl
    | some t0 =>
      exfalso
      simp only [getAccessToken, hacc] at hres
      by_cases hle : s.expiresAt ≤ now
      · simp only [hle, if_true] at hres
        cases hr : refreshStep s now d with
        | error e =>
          simp only [hr] at hres
          cases hst : s.refreshToken with
          | none => simp [refreshStep, hst] at hr; simp [← hr] at hres
          | some r0 =>
            cases hda : d.access_token with
            | none => simp [refreshStep, hst, hda] at hr; simp [← hr] at hres
            | some a0 => simp [refreshStep, hst, hda] at hr
        | ok s2 => simp [hr] at hres
      · simp [hle] at hres
  · simp [getAccessToken, hacc, hle, refreshStep, hrt]

/-- Closed instances of `C6_getAccessToken_spec`: an unexpired cached token is
returned with no refresh; an expired cached token triggers exactly one refresh
and the refreshed token is returned. -/
theorem C6_getAccessToken_spec_witness :
    getAccessToken ⟨some "a", some "r", 9000⟩ 5000 ⟨some "a2", some "r2", some 3600⟩
      = .ok (⟨some "a", some "r", 9000⟩, "a", 0)
    ∧ getAccessToken ⟨some "a", some "r", 4000⟩ 5000 ⟨some "a2", some "r2", some 3600⟩
      = .ok (applyTokens ⟨some "a", some "r", 4000⟩ 5000 ⟨some "a2", some "r2", some 3600⟩,
             "a2", 1) := by
  constructor
  · exact (C6_getAccessToken_spec ⟨some "a", some "r", 9000⟩ 5000
      ⟨some "a2", some "r2", some 3600⟩ "a" "r" "a2").1 rfl (by decide)
  · exact (C6_getAccessToken_spec ⟨some "a", some "r", 4000⟩ 5000
      ⟨some "a2", some "r2", some 3600⟩ "a" "r" "a2").2.1 rfl (by decide) rfl rfl

/-- C7 counterexample: `setRefreshToken` does not clear a cached short-lived
credential: after adopting a long-lived credential the old access token is
still cached, and the next access returns it with zero refresh calls instead
of forcing a renewal. -/
theorem C7_counterexample :
    (setRefreshToken ⟨some "a", none, 9000⟩ "r").accessToken = some "a"
    ∧ getAccessToken (setRefreshToken ⟨some "a", none, 9000⟩ "r") 5000
        ⟨some "a2", some "r2", some 3600⟩
      = .ok (setRefreshToken ⟨some "a", none, 9000⟩ "r", "a", 0) := by
  exact ⟨rfl, rfl⟩

/-- C7 (amended): `setRefreshToken` installs the trimmed long-lived credential
(with a trimmed-empty value treated as absent) without any network call, and
modifies no other session state: in particular it neither clears the cached
short-lived credential nor changes the expiry instant. -/
theorem C7_setRefreshToken_spec (s : AuthState) (t : String) :
    (setRefreshToken s t).refreshToken = (if strTrim t = "" then none else some (strTrim t))
    ∧ (setRefreshToken s t).accessToken = s.accessToken
    ∧ (setRefreshToken s t).expiresAt = s.expiresAt :=
  ⟨rfl, rfl, rfl⟩

/-! ## Authenticated request layer (src/lib/groheClient.js `request`) -/

/-- Outcome of one HTTP attempt of `this.http.request(config)`: a success with
a response payload tag, or a thrown axios error whose `response.status` is the
optional `Nat` (`none` models a transport error without a response). -/
inductive HttpAttempt where
  | success : Nat → HttpAttempt
  | failure : Option Nat → HttpAttempt
deriving DecidableEq

/-- Errors surfaced by the request layer: a session-engine error thrown by
`getAccessToken`/`refresh`, or the axios error rethrown unchanged. -/
inductive ReqErr where
  | authErr : AuthErr → ReqErr
  | httpErr : Option Nat → ReqErr
deriving DecidableEq

/-- Trace of one `request(config)` call: the result, how many HTTP attempts
were executed, and how many refresh calls were made in total. -/
structure ReqTrace where
  result : Except ReqErr Nat
  attempts : Nat
  refreshes : Nat

/-- Embedding of `GroheClient.request(config, retry = false)` (src/lib/
groheClient.js 54-77): get a token (which may itself refresh once if the
cached token is expired), run the attempt, and rethrow any error (the 401
branch is disabled, the 403 branch only logs). -/
def requestNoRetry (s : AuthState) (now : Int) (d : TokenRespData)
    (att : HttpAttempt) : ReqTrace :=
  match getAccessToken s now d with
  | .error e => ⟨.error (.authErr e), 0, 0⟩
  | .ok (_, _, r) =>
    match att with
    | .success v => ⟨.ok v, 1, r⟩
    | .failure st => ⟨.error (.httpErr st), 1, r⟩

/-- Embedding of `GroheClient.request(config)` with the default `retry = true`
(src/lib/groheClient.js 54-77): on a thrown error with `response.status ===
401`, refresh once and re-enter with `retry = false`; any other error is
rethrown unchanged (after the 403 log). `att1` and `att2` are the outcomes of
the first and (if reached) second HTTP attempt; `d` is the refresh-endpoint
response body used by any refresh call. -/
def request (s : AuthState) (now : Int) (d : TokenRespData)
    (att1 att2 : HttpAttempt) : ReqTrace :=
  match getAccessToken s now d with
  | .error e => ⟨.error (.authErr e), 0, 0⟩
  | .ok (s1, _, r1) =>
    match att1 with
    | .success v => ⟨.ok v, 1, r1⟩
    | .failure st =>
      if st = some 401 then
        match refreshStep s1 now d with
        | .error e => ⟨.error (.authErr e), 1, r1 + 1⟩
        | .ok s2 =>
          let t := requestNoRetry s2 now d att2
          ⟨t.result, 1 + t.attempts, r1 + 1 + t.refreshes⟩
      else ⟨.error (.httpErr st), 1, r1⟩

/-- C3: starting from a session with a valid (unexpired) access token and a
refresh token, and a refresh endpoint that answers with a fresh token
(lifetime above the 60 s margin), a 401 on the first attempt causes exactly
one refresh and exactly one retry: the call makes 2 attempts, the second
attempt outcome is surfaced (a second 401 is surfaced without a third
attempt), and any non-401 error on the first attempt is surfaced unchanged
with 1 attempt and 0 refreshes. -/
theorem C3_request_single_retry (s : AuthState) (now : Int) (d : TokenRespData)
    (tok r a2 : String) (att2 : HttpAttempt) (st : Option Nat)
    (hacc : s.accessToken = some tok) (hvalid : now < s.expiresAt)
    (hrt : s.refreshToken = some r) (hda : d.access_token = some a2)
    (hfresh : 60 < jsOrNum d.expires_in 3600) :
    (request s now d (.failure (some 401)) att2).refreshes = 1
    ∧ (request s now d (.failure (some 401)) att2).attempts = 2
    ∧ (request s now d (.failure (some 401)) att2).result =
        (match att2 with
         | .success v => .ok v
         | .failure st2 => .error (.httpErr st2))
    ∧ (st ≠ some 401 →
        request s now d (.failure st) att2 = ⟨.error (.httpErr st), 1, 0⟩) := by
  have hget : getAccessToken s now d = .ok (s, tok, 0) := by
    simp [getAccessToken, hacc, not_le.mpr hvalid]
  have hrefresh : refreshStep s now d = .ok (applyTokens s now d) := by
    simp [refreshStep, hrt, hda]
  have hfresh2 : now < (applyTokens s now d).expiresAt := by
    simp only [applyTokens]
    have : 0 < (jsOrNum d.expires_in 3600 - 60) * 1000 := by
      have h60 : 0 < jsOrNum d.expires_in 3600 - 60 := by omega
      positivity
    omega
  have hget2 : getAccessToken (applyTokens s now d) now d
      = .ok (applyTokens s now d, a2, 0) := by
    have hne2 : ¬ (applyTokens s now d).expiresAt ≤ now := not_le.mpr hfresh2
    have hacc2 : (applyTokens s now d).accessToken = some a2 := by simp [applyTokens, hda]
    unfold getAccessToken
    rw [hacc2]
    simp [hne2]
  have hmain : request s now d (.failure (some 401)) att2 =
      ⟨(match att2 with
        | .success v => .ok v
        | .failure st2 => .error (.httpErr st2)), 2, 1⟩ := by
    cases att2 <;>
      simp [request, hget, hrefresh, requestNoRetry, hget2]
  refine ⟨by rw [hmain], by rw [hmain], by rw [hmain], fun hne => ?_⟩
  cases st with
  | none => simp [request, hget]
  | some n =>
    have : ¬ ((some n : Option Nat) = some 401) := hne
    simp [request, hget, this]

/-- Closed instances of `C3_request_single_retry`: a second 401 on the retry
is surfaced after exactly 2 attempts and 1 refresh, and a 500 on the first
attempt is surfaced unchanged after 1 attempt and 0 refreshes. -/
theorem C3_request_single_retry_witness :
    (request ⟨some "a", some "r", 9000⟩ 5000 ⟨some "a2", some "r2", some 3600⟩
        (.failure (some 401)) (.failure (some 401))).refreshes = 1
    ∧ (request ⟨some "a", some "r", 9000⟩ 5000 ⟨some "a2", some "r2", some 3600⟩
        (.failure (some 401)) (.failure (some 401))).attempts = 2
    ∧ (request ⟨some "a", some "r", 9000⟩ 5000 ⟨some "a2", some "r2", some 3600⟩
        (.failure (some 401)) (.failure (some 401))).result
      = .error (.httpErr (some 401))
    ∧ request ⟨some "a", some "r", 9000⟩ 5000 ⟨some "a2", some "r2", some 3600⟩
        (.failure (some 500)) (.failure (some 401))
      = ⟨.error (.httpErr (some 500)), 1, 0⟩ := by
  have h := C3_request_single_retry ⟨some "a", some "r", 9000⟩ 5000
    ⟨some "a2", some "r2", some 3600⟩ "a" "r" "a2" (.failure (some 401)) (some 500)
    rfl (by decide) rfl rfl (by decide)
  exact ⟨h.1, h.2.1, h.2.2.1, h.2.2.2 (by decide)⟩

/-! ## Poll scheduler (src/main.js) -/

/-- Embedding of the interval computed in `onReady` (src/main.js 97):
`Math.max(30, Number(this.config.pollInterval) || 300)`. `none` models an
unset or non-numeric configuration value (`Number(...)` then gives `NaN`,
which is falsy). -/
def computePollIntervalSeconds (configPollInterval : Option Int) : Int :=
  max 30 (jsOrNum configPollInterval 300)

/-- Scheduling-relevant adapter state. src/main.js keeps no failure counter
and no mutable interval: the only state touched by a poll outcome is the
`info.connection` flag, and the `setInterval` delay is fixed at startup. -/
structure PollState where
  connection : Bool
  intervalSeconds : Int
deriving DecidableEq

/-- State after `onReady` has set up polling (src/main.js 91-101). -/
def initPollState (configPollInterval : Option Int) : PollState :=
  ⟨true, computePollIntervalSeconds configPollInterval⟩

/-- Effect of one `pollDevices` run on the scheduling-relevant state
(src/main.js 112-149): success sets `info.connection` true, failure (any
caught error, including HTTP 403) sets it false and only logs. Nothing else
is mutated. -/
def pollDevicesStep (s : PollState) (dashboardOk : Bool) : PollState :=
  if dashboardOk then { s with connection := true } else { s with connection := false }

/-- Delay until the next cycle fires: the fixed `setInterval` period
(src/main.js 98-100), independent of past outcomes. -/
def nextCycleDelaySeconds (s : PollState) : Int :=
  s.intervalSeconds

/-- C1 (evaluated at the failing input): with the problem configuration
300 s, after one failed dashboard poll the code schedules the next cycle
after 300 s, not the claimed `min(300 × 2^1, 3600) = 600` s; and even after
four consecutive failures the delay is still 300 s, not the claimed
noon/midnight pause (since 300 × 2^4 = 4800 ≥ 3600). No failure counter
exists in the state at all. -/
theorem C1_no_backoff :
    nextCycleDelaySeconds (pollDevicesStep (initPollState (some 300)) false) = 300
    ∧ (300 : Int) ≠ min (300 * 2 ^ 1) 3600
    ∧ nextCycleDelaySeconds
        (pollDevicesStep (pollDevicesStep (pollDevicesStep
          (pollDevicesStep (initPollState (some 300)) false) false) false) false) = 300 := by
  refine ⟨rfl, by decide, rfl⟩

/-- The remote endpoints distinguished by the tiered-polling claim. -/
inductive Endpoint where
  | dashboard : Endpoint
  | statusRead : Endpoint
  | commandRead : Endpoint
  | pressureRead : Endpoint
  | measurementTrigger : Endpoint
deriving DecidableEq

/-- Endpoints src/main.js invokes for one Sense Guard appliance in one poll
cycle (`pollDevices` → `_processAppliance` → `_updateSenseGuard`, src/main.js
112-364): the dashboard snapshot, then `getApplianceStatus` for every
appliance, and for a Sense Guard also `getApplianceCommand` and
`getAppliancePressureMeasurement` — all unconditionally. The cycle number is
a parameter only so the tiering claim can be stated: the code keeps no cycle
counter, so the list cannot depend on it. -/
def senseGuardCycleCalls (_cycleNumber : Nat) : List Endpoint :=
  [.dashboard, .statusRead, .commandRead, .pressureRead]

/-- Endpoints src/main.js invokes for one Grohe Blue appliance in one poll
cycle (`_processAppliance` → `_updateBlue`): the dashboard snapshot and
`getApplianceStatus`; no `get_current_measurement` command is ever sent. -/
def blueCycleCalls (_cycleNumber : Nat) : List Endpoint :=
  [.dashboard, .statusRead]

/-- C2 (evaluated at the failing input): on cycle 1 the code already calls
the status, command-read and pressure-test endpoints although 1 is divisible
by none of 5, 3 and 10, and on cycle 3 no measurement-trigger command is sent
to a Blue appliance although the claim requires one on every third cycle.
The dashboard call does occur on every cycle. -/
theorem C2_no_tiering :
    (Endpoint.statusRead ∈ senseGuardCycleCalls 1 ∧ ¬ (5 ∣ 1))
    ∧ (Endpoint.commandRead ∈ senseGuardCycleCalls 1 ∧ ¬ (3 ∣ 1))
    ∧ (Endpoint.pressureRead ∈ senseGuardCycleCalls 1 ∧ ¬ (10 ∣ 1))
    ∧ Endpoint.measurementTrigger ∉ blueCycleCalls 3
    ∧ Endpoint.dashboard ∈ senseGuardCycleCalls 1 := by
  decide

/-! ## Cookie jar and redirect chain (src/lib/auth.js `_getWithJar`,
`_storeCookiesFromResponse`)

The source stores cookies with `tough-cookie`, which is domain- and
path-aware (the code comments call this out: "jar collects cookies at each
hop with proper domain/path handling"). The jar model below keys cookies by
(name, domain, path), applies the RFC 6265 default-path, domain-match and
path-match rules, and replaces an existing cookie with the same key, which is
how `setCookieSync` / `getCookieStringSync` behave. URLs are modelled by host
and path (every URL in the flow is https); the `Location` header is modelled
already resolved, as the code resolves relative locations with `new URL`. -/

/-- A URL, reduced to the parts the cookie jar looks at. -/
structure Url where
  host : String
  path : String
deriving DecidableEq

/-- A parsed `Set-Cookie` instruction: name, value and the optional `Domain`
and `Path` attributes. -/
structure SetCookieData where
  name : String
  value : String
  domainAttr : Option String
  pathAttr : Option String
deriving DecidableEq

/-- A cookie stored in the jar. `hostOnly` is set when the instruction had no
`Domain` attribute, in which case the cookie only matches its exact host. -/
structure Cookie where
  name : String
  value : String
  domain : String
  path : String
  hostOnly : Bool
deriving DecidableEq

/-- The cookie jar. -/
abbrev Jar := List Cookie

/-- RFC 6265 default path of a request path: everything up to but not
including the rightmost `/`, or `/` when that is empty. -/
def defaultCookiePath (p : String) : String :=
  if ¬ strLeads p "/" then "/"
  else
    let stem := ((p.data.reverse.dropWhile (· ≠ '/')).drop 1).reverse
    if stem = [] then "/" else ⟨stem⟩

/-- Build the stored cookie for one `Set-Cookie` instruction received from a
request to `requestUrl`: without a `Domain` attribute the cookie is host-only
for the request host; a leading dot on the attribute is dropped; without a
`Path` attribute the default path of the request path is used. -/
def cookieFromSet (sc : SetCookieData) (requestUrl : Url) : Cookie :=
  match sc.domainAttr with
  | none =>
    ⟨sc.name, sc.value, requestUrl.host,
      sc.pathAttr.getD (defaultCookiePath requestUrl.path), true⟩
  | some d =>
    ⟨sc.name, sc.value, if strLeads d "." then strDropChars d 1 else d,
      sc.pathAttr.getD (defaultCookiePath requestUrl.path), false⟩

/-- Two cookies share a jar slot when name, domain and path all agree. -/
def cookieKeyMatches (a b : Cookie) : Bool :=
  a.name == b.name && a.domain == b.domain && a.path == b.path

/-- `setCookieSync`: drop any cookie with the same (name, domain, path) key
and store the new one — last write wins per key. -/
def jarSet (jar : Jar) (c : Cookie) : Jar :=
  jar.filter (fun old => ! cookieKeyMatches old c) ++ [c]

/-- Embedding of `_storeCookiesFromResponse` (src/lib/auth.js 256-274): every
`Set-Cookie` header of the response is stored in the jar against the request
URL, in order. -/
def storeCookiesFromResponse (jar : Jar) (requestUrl : Url) (scs : List SetCookieData) : Jar :=
  scs.foldl (fun j sc => jarSet j (cookieFromSet sc requestUrl)) jar

/-- RFC 6265 domain matching: a host-only cookie matches only its exact host,
otherwise the host may also be a dot-separated subdomain of the cookie
domain. -/
def cookieDomainMatch (host : String) (c : Cookie) : Bool :=
  if c.hostOnly then host == c.domain
  else host == c.domain || host.endsWith ("." ++ c.domain)

/-- RFC 6265 path matching of a request path against a cookie path. -/
def cookiePathMatch (rp cp : String) : Bool :=
  rp == cp || (strLeads rp cp && (strTrails cp "/" || strLeads (strDropChars rp cp.length) "/"))

/-- `getCookieStringSync(url)`, kept as (name, value) pairs: the cookies of
the jar whose domain and path match the URL. -/
def jarCookiePairs (jar : Jar) (u : Url) : List (String × String) :=
  (jar.filter (fun c => cookieDomainMatch u.host c && cookiePathMatch u.path c.path)).map
    (fun c => (c.name, c.value))

/-- One response in the redirect chain: HTTP status, `Location` header
(`none` when absent or empty, otherwise already resolved), `Set-Cookie`
instructions, and the body. -/
structure Hop where
  status : Nat
  location : Option Url
  setCookies : List SetCookieData
  body : String
deriving DecidableEq

/-- Result of `_getWithJar`: body and final URL of the first non-redirect
response, plus the accumulated jar. -/
structure ChainResult where
  body : String
  finalUrl : Url
  jar : Jar
deriving DecidableEq

/-- Embedding of the loop of `_getWithJar` (src/lib/auth.js 202-243):
`for (let i = 0; i < 20; i++)` — fetch, store all cookies of the response,
follow when the status is 3xx and a `Location` is present, otherwise return
body, current URL (and the jar). After 20 redirect responses the loop falls
through to the too-many-redirects error. `responses 0` is the response to the
current request and the stream is shifted on recursion, so `responses i` is
the response to the i-th request of the chain. -/
def getWithJarGo : Nat → (Nat → Hop) → Url → Jar → Except String ChainResult
  | 0, _, _, _ => .error "Too many redirects while loading login page"
  | fuel + 1, responses, u, jar =>
    let r := responses 0
    let jar2 := storeCookiesFromResponse jar u r.setCookies
    match r.location with
    | some loc =>
      if 300 ≤ r.status ∧ r.status < 400 then
        getWithJarGo fuel (fun j => responses (j + 1)) loc jar2
      else .ok ⟨r.body, u, jar2⟩
    | none => .ok ⟨r.body, u, jar2⟩

/-- `_getWithJar(startUrl, jar)`: the 20-iteration redirect loop. -/
def getWithJarFrom (jar0 : Jar) (responses : Nat → Hop) (startUrl : Url) :
    Except String ChainResult :=
  getWithJarGo 20 responses startUrl jar0

/-- The cookie header later sent with the credential submission (src/lib/
auth.js 94 and 128): `_doLogin` creates a fresh jar, runs `_getWithJar` with
it, and builds the POST cookie header with `jar.getCookieStringSync(actionUrl)`. -/
def submissionCookiePairs (responses : Nat → Hop) (startUrl actionUrl : Url) :
    Except String (List (String × String)) :=
  match getWithJarFrom [] responses startUrl with
  | .error e => .error e
  | .ok cr => .ok (jarCookiePairs cr.jar actionUrl)

/-- Response stream of a chain: the redirect responses in order, then the
final response for every later request. -/
def chainStream (reds : List Hop) (fin : Hop) (i : Nat) : Hop :=
  reds.getD i fin

/-- All `Set-Cookie` instructions seen along a chain, in order. -/
def cookiesOfChain (reds : List Hop) (fin : Hop) : List SetCookieData :=
  (reds.map Hop.setCookies).flatten ++ fin.setCookies

/-- The spec words model the jar as a plain (name → value) map with last
write winning. `nameKeyedJar` is that specification-side jar, to be compared
with the (name, domain, path)-keyed jar of the source. -/
def nameUpd (acc : List (String × String)) (sc : SetCookieData) : List (String × String) :=
  acc.filter (fun q => q.1 != sc.name) ++ [(sc.name, sc.value)]

/-- Name-keyed last-write-wins jar of a list of cookie instructions,
following the spec words. -/
def nameKeyedJar (scs : List SetCookieData) : List (String × String) :=
  scs.foldl nameUpd []

/-- A host-only cookie for host `h` with root path. -/
def hostCookie (h : String) (q : String × String) : Cookie :=
  ⟨q.1, q.2, h, "/", true⟩

/-- Jar holding exactly the given name/value pairs as host-only root-path
cookies of host `h`. -/
def pairsToCookies (h : String) (l : List (String × String)) : Jar :=
  l.map (hostCookie h)

theorem cookieFromSet_simple (sc : SetCookieData) (u : Url)
    (hd : sc.domainAttr = none) (hp : sc.pathAttr = some "/") :
    cookieFromSet sc u = ⟨sc.name, sc.value, u.host, "/", true⟩ := by
  simp [cookieFromSet, hd, hp]

theorem jarSet_pairs (h : String) (acc : List (String × String)) (n v : String) :
    jarSet (pairsToCookies h acc) ⟨n, v, h, "/", true⟩
      = pairsToCookies h (acc.filter (fun q => q.1 != n) ++ [(n, v)]) := by
  unfold jarSet pairsToCookies
  rw [List.map_append]
  refine congrArg₂ (· ++ ·) ?_ rfl
  induction acc with
  | nil => rfl
  | cons q t ih =>
    by_cases hqn : q.1 = n
    · simp [List.filter_cons, hostCookie, cookieKeyMatches, hqn]
      simpa [cookieKeyMatches] using ih
    · simp [List.filter_cons, hostCookie, cookieKeyMatches, hqn]
      simpa [cookieKeyMatches] using ih

theorem storeCookies_simple (h : String) (scs : List SetCookieData) :
    ∀ acc : List (String × String),
    (∀ sc ∈ scs, sc.domainAttr = none ∧ sc.pathAttr = some "/") →
    storeCookiesFromResponse (pairsToCookies h acc) ⟨h, "/"⟩ scs
      = pairsToCookies h (scs.foldl nameUpd acc) := by
  induction scs with
  | nil => intro acc _; rfl
  | cons sc t ih =>
    intro acc hall
    have hsc := hall sc (by simp)
    have hstep : jarSet (pairsToCookies h acc) (cookieFromSet sc ⟨h, "/"⟩)
        = pairsToCookies h (nameUpd acc sc) := by
      rw [cookieFromSet_simple sc ⟨h, "/"⟩ hsc.1 hsc.2]
      exact jarSet_pairs h acc sc.name sc.value
    calc storeCookiesFromResponse (pairsToCookies h acc) ⟨h, "/"⟩ (sc :: t)
        = storeCookiesFromResponse (pairsToCookies h (nameUpd acc sc)) ⟨h, "/"⟩ t := by
          simp only [storeCookiesFromResponse, List.foldl_cons, hstep]
      _ = pairsToCookies h (t.foldl nameUpd (nameUpd acc sc)) :=
          ih (nameUpd acc sc) (fun x hx => hall x (by simp [hx]))
      _ = pairsToCookies h ((sc :: t).foldl nameUpd acc) := by
          simp [List.foldl_cons]

theorem jarCookiePairs_pairs (h p : String) (hp : strLeads p "/" = true)
    (l : List (String × String)) :
    jarCookiePairs (pairsToCookies h l) ⟨h, p⟩ = l := by
  have hslash : strTrails "/" "/" = true := rfl
  induction l with
  | nil => rfl
  | cons q t ih =>
    have hmatch : (cookieDomainMatch h (hostCookie h q)
        && cookiePathMatch p (hostCookie h q).path) = true := by
      simp [cookieDomainMatch, hostCookie, cookiePathMatch, hp, hslash]
    simp only [jarCookiePairs, pairsToCookies, List.map_cons, List.filter_cons, hmatch,
      if_true, List.map_cons] at *
    simpa [hostCookie] using ih

theorem chainRunOk (fin : Hop) (u0 : Url) (hfin : fin.location = none)
    (reds : List Hop) :
    ∀ (fuel : Nat) (jar : Jar),
    reds.length < fuel →
    (∀ r ∈ reds, (300 ≤ r.status ∧ r.status < 400) ∧ r.location = some u0) →
    getWithJarGo fuel (chainStream reds fin) u0 jar =
      .ok ⟨fin.body, u0, storeCookiesFromResponse jar u0 (cookiesOfChain reds fin)⟩ := by
  induction reds with
  | nil =>
    intro fuel jar hlen _
    match fuel, hlen with
    | f + 1, _ =>
      simp [getWithJarGo, chainStream, hfin, cookiesOfChain]
  | cons c rest ih =>
    intro fuel jar hlen hall
    match fuel, hlen with
    | f + 1, hlen =>
      have hc := hall c (by simp)
      have hshift : (fun j => chainStream (c :: rest) fin (j + 1)) = chainStream rest fin :=
        funext (fun j => by simp [chainStream])
      have hstep : getWithJarGo (f + 1) (chainStream (c :: rest) fin) u0 jar
          = getWithJarGo f (chainStream rest fin) u0
              (storeCookiesFromResponse jar u0 c.setCookies) := by
        have h0 : chainStream (c :: rest) fin 0 = c := by simp [chainStream]
        simp only [getWithJarGo, h0, hc.2, hc.1, and_self, if_true, hshift]
      rw [hstep, ih f _ (by simpa using hlen) (fun r hr => hall r (by simp [hr]))]
      simp [cookiesOfChain, storeCookiesFromResponse, List.foldl_append]

theorem chainTooMany :
    ∀ (fuel : Nat) (s : Nat → Hop) (u : Url) (jar : Jar),
    (∀ j < fuel, (300 ≤ (s j).status ∧ (s j).status < 400) ∧ (s j).location.isSome) →
    getWithJarGo fuel s u jar = .error "Too many redirects while loading login page" := by
  intro fuel
  induction fuel with
  | zero => intro s u jar _; rfl
  | succ f ih =>
    intro s u jar hall
    have h0 := hall 0 (by omega)
    cases hl : (s 0).location with
    | none => rw [hl] at h0; simp at h0
    | some loc =>
      have hstep : getWithJarGo (f + 1) s u jar
          = getWithJarGo f (fun j => s (j + 1)) loc
              (storeCookiesFromResponse jar u (s 0).setCookies) := by
        simp only [getWithJarGo, hl, h0.1, and_self, if_true]
      rw [hstep]
      exact ih _ loc _ (fun j hj => hall (j + 1) (by omega))

/-- C5 counterexample: one redirect hop on the API host sets cookie `x`, the
chain ends on the SSO host, and the credential submission also goes to the
SSO host. The cookie name `x` was seen on the chain, but the submission
cookie header is empty: the jar is keyed by (name, domain, path), not by
name, so the header does not contain the union of all cookie names seen. -/
theorem C5_counterexample :
    submissionCookiePairs
        (chainStream
          [⟨302, some ⟨"sso.example.com", "/"⟩, [⟨"x", "1", none, some "/"⟩], ""⟩]
          ⟨200, none, [], "page"⟩)
        ⟨"api.example.com", "/"⟩ ⟨"sso.example.com", "/"⟩
      = .ok []
    ∧ (⟨302, some ⟨"sso.example.com", "/"⟩, [⟨"x", "1", none, some "/"⟩], ""⟩ : Hop).setCookies.map
        SetCookieData.name = ["x"] :=
  ⟨rfl, rfl⟩

/-- C5 (amended): the redirect chain is followed manually and cookies are
merged into the jar keyed by (name, domain, path) with last write winning,
not by name alone. For every chain of at most 19 redirect responses followed
by a non-redirect response, all confined to one host `h` with root-path
host-only cookies, the loop stops at the first non-redirect response
(returning its body and the current URL) and the cookie header sent with the
credential submission to any path on `h` is exactly the name-keyed
last-write-wins map of all cookie instructions seen on the chain — the union
of all names seen, each with its most recently set value. A chain of 20 or
more redirect responses is the too-many-redirects error. -/
theorem C5_cookie_chain (h p : String) (reds redsLong : List Hop) (fin : Hop)
    (hlen : reds.length ≤ 19)
    (hred : ∀ r ∈ reds, ((300 ≤ r.status ∧ r.status < 400) ∧ r.location = some ⟨h, "/"⟩)
      ∧ ∀ sc ∈ r.setCookies, sc.domainAttr = none ∧ sc.pathAttr = some "/")
    (hfin : fin.location = none)
    (hfinc : ∀ sc ∈ fin.setCookies, sc.domainAttr = none ∧ sc.pathAttr = some "/")
    (hp : strLeads p "/" = true)
    (hlong : 20 ≤ redsLong.length)
    (hlongr : ∀ r ∈ redsLong, (300 ≤ r.status ∧ r.status < 400) ∧ r.location.isSome) :
    getWithJarFrom [] (chainStream reds fin) ⟨h, "/"⟩
      = .ok ⟨fin.body, ⟨h, "/"⟩, pairsToCookies h (nameKeyedJar (cookiesOfChain reds fin))⟩
    ∧ submissionCookiePairs (chainStream reds fin) ⟨h, "/"⟩ ⟨h, p⟩
      = .ok (nameKeyedJar (cookiesOfChain reds fin))
    ∧ getWithJarFrom [] (chainStream redsLong fin) ⟨h, "/"⟩
      = .error "Too many redirects while loading login page" := by
  have hsimple : ∀ sc ∈ cookiesOfChain reds fin, sc.domainAttr = none ∧ sc.pathAttr = some "/" := by
    intro sc hsc
    rcases List.mem_append.mp hsc with hsc | hsc
    · rcases List.mem_flatten.mp hsc with ⟨s, hs, hscs⟩
      rcases List.mem_map.mp hs with ⟨r, hr, rfl⟩
      exact (hred r hr).2 sc hscs
    · exact hfinc sc hsc
  have hrun : getWithJarFrom [] (chainStream reds fin) ⟨h, "/"⟩
      = .ok ⟨fin.body, ⟨h, "/"⟩,
          storeCookiesFromResponse [] ⟨h, "/"⟩ (cookiesOfChain reds fin)⟩ :=
    chainRunOk fin ⟨h, "/"⟩ hfin reds 20 [] (by omega) (fun r hr => (hred r hr).1)
  have hstore : storeCookiesFromResponse [] ⟨h, "/"⟩ (cookiesOfChain reds fin)
      = pairsToCookies h (nameKeyedJar (cookiesOfChain reds fin)) := by
    have := storeCookies_simple h (cookiesOfChain reds fin) [] hsimple
    simpa [pairsToCookies, nameKeyedJar] using this
  refine ⟨by rw [hrun, hstore], ?_, ?_⟩
  · unfold submissionCookiePairs
    rw [hrun, hstore]
    simp [jarCookiePairs_pairs h p hp]
  · exact chainTooMany 20 (chainStream redsLong fin) ⟨h, "/"⟩ []
      (fun j hj => by
        have hjlen : j < redsLong.length := by omega
        have hmem : chainStream redsLong fin j ∈ redsLong := by
          rw [chainStream, List.getD_eq_getElem _ _ hjlen]
          exact List.getElem_mem hjlen
        have := hlongr _ hmem
        exact ⟨this.1, this.2⟩)

/-- Closed instance of `C5_cookie_chain`: a two-redirect single-host chain
where `AUTH_SESSION` is set three times and `KC_RESTART` once yields a
submission header with both names and the last-written values, and a chain
of 20 redirect responses errors out. -/
theorem C5_cookie_chain_witness :
    submissionCookiePairs
        (chainStream
          [⟨302, some ⟨"auth.example.com", "/"⟩,
              [⟨"AUTH_SESSION", "s1", none, some "/"⟩], ""⟩,
           ⟨303, some ⟨"auth.example.com", "/"⟩,
              [⟨"KC_RESTART", "k1", none, some "/"⟩,
               ⟨"AUTH_SESSION", "s2", none, some "/"⟩], ""⟩]
          ⟨200, none, [⟨"AUTH_SESSION", "s3", none, some "/"⟩], "form"⟩)
        ⟨"auth.example.com", "/"⟩ ⟨"auth.example.com", "/login-actions/authenticate"⟩
      = .ok [("KC_RESTART", "k1"), ("AUTH_SESSION", "s3")]
    ∧ getWithJarFrom []
        (chainStream
          (List.replicate 20 ⟨302, some ⟨"auth.example.com", "/"⟩, [], ""⟩)
          ⟨200, none, [⟨"AUTH_SESSION", "s3", none, some "/"⟩], "form"⟩)
        ⟨"auth.example.com", "/"⟩
      = .error "Too many redirects while loading login page" := by
  have h := C5_cookie_chain "auth.example.com" "/login-actions/authenticate"
    [⟨302, some ⟨"auth.example.com", "/"⟩,
        [⟨"AUTH_SESSION", "s1", none, some "/"⟩], ""⟩,
     ⟨303, some ⟨"auth.example.com", "/"⟩,
        [⟨"KC_RESTART", "k1", none, some "/"⟩,
         ⟨"AUTH_SESSION", "s2", none, some "/"⟩], ""⟩]
    (List.replicate 20 ⟨302, some ⟨"auth.example.com", "/"⟩, [], ""⟩)
    ⟨200, none, [⟨"AUTH_SESSION", "s3", none, some "/"⟩], "form"⟩
    (by decide)
    (by
      intro r hr
      simp only [List.mem_cons, List.not_mem_nil, or_false] at hr
      rcases hr with rfl | rfl
      · exact ⟨⟨by decide, rfl⟩, by decide⟩
      · exact ⟨⟨by decide, rfl⟩, by decide⟩)
    rfl
    (by decide)
    rfl
    (by simp)
    (by
      intro r hr
      rw [List.eq_of_mem_replicate hr]
      exact ⟨by decide, rfl⟩)
  exact ⟨h.2.1, h.2.2⟩

/-! ## Login retry loop (src/lib/auth.js `login` / `_doLogin`) -/

/-- The fixed login-initiation address `LOGIN_URL` (src/lib/auth.js 21-22),
reduced to host and path. -/
def LOGIN_URL : Url :=
  ⟨"idp2-apigw.cloud.grohe.com", "/v3/iot/oidc/login"⟩

/-- Per-attempt environment of one `_doLogin` run: the responses of the
login-page redirect chain, and the remainder of the attempt (form parsing,
credential POST, token exchange — steps 2-8) as a function of the chain
result. -/
structure AttemptEnv where
  responses : Nat → Hop
  afterChain : String → Url → Jar → Except String TokenRespData

/-- The body of `_doLogin` (src/lib/auth.js 84-189) run with a given starting
jar: run the manual redirect chain from `LOGIN_URL`, fail when the body is
empty, then continue with steps 2-8. -/
def doLoginFromJar (jar0 : Jar) (a : AttemptEnv) : Except String TokenRespData :=
  match getWithJarFrom jar0 a.responses LOGIN_URL with
  | .error e => .error e
  | .ok cr =>
    if cr.body = "" then .error "Login page returned no HTML"
    else a.afterChain cr.body cr.finalUrl cr.jar

/-- `_doLogin`: its first step (src/lib/auth.js 86) is
`const jar = new tough.CookieJar()`, so every attempt runs from the empty
jar, independent of any previous attempt. -/
def doLogin (a : AttemptEnv) : Except String TokenRespData :=
  doLoginFromJar [] a

/-- Embedding of `GroheAuth.login` (src/lib/auth.js 60-79): reject empty
credentials, then `for (attempt = 1; attempt <= 3; attempt++)` unrolled,
calling `_doLogin` per attempt, sleeping `attempt * 2000` ms after a failed
attempt when attempts remain, and finally throwing the last error. The result
carries the outcome, the number of attempts made, and the executed sleeps in
ms, in order. -/
def login (email password : String) (envs : Nat → AttemptEnv) :
    Except String TokenRespData × Nat × List Nat :=
  if email = "" ∨ password = "" then (.error "Email and password are required", 0, [])
  else
    match doLogin (envs 1) with
    | .ok t => (.ok t, 1, [])
    | .error _ =>
      match doLogin (envs 2) with
      | .ok t => (.ok t, 2, [2000])
      | .error _ =>
        match doLogin (envs 3) with
        | .ok t => (.ok t, 3, [2000, 4000])
        | .error e3 => (.error e3, 3, [2000, 4000])

/-- C4: for non-empty credentials whose submission keeps failing, `login`
makes exactly 3 attempts, sleeps attempt-index × 2 seconds (2000 ms then
4000 ms) between consecutive attempts, and surfaces the failure of the last
attempt; and each attempt runs `_doLogin` from the empty cookie jar, so the
jars of the attempts are independent and fresh. -/
theorem C4_login_retry_budget (email password : String) (envs : Nat → AttemptEnv)
    (m1 m2 m3 : String)
    (he : email ≠ "") (hpw : password ≠ "")
    (h1 : doLogin (envs 1) = .error m1)
    (h2 : doLogin (envs 2) = .error m2)
    (h3 : doLogin (envs 3) = .error m3) :
    login email password envs = (.error m3, 3, [2000, 4000])
    ∧ doLogin (envs 1) = doLoginFromJar [] (envs 1)
    ∧ doLogin (envs 2) = doLoginFromJar [] (envs 2)
    ∧ doLogin (envs 3) = doLoginFromJar [] (envs 3) := by
  refine ⟨?_, rfl, rfl, rfl⟩
  simp [login, he, hpw, h1, h2, h3]

/-- Attempt environment whose chain always answers a final response with an
empty body, so every `_doLogin` run fails. -/
def failEnv : AttemptEnv :=
  ⟨fun _ => ⟨200, none, [], ""⟩, fun _ _ _ => .error "afterChain"⟩

/-- Closed instance of `C4_login_retry_budget`: persistent failures yield the
third attempt error after 3 attempts with sleeps 2000 ms and 4000 ms. -/
theorem C4_login_retry_budget_witness :
    login "user@example.com" "pw" (fun _ => failEnv)
      = (.error "Login page returned no HTML", 3, [2000, 4000]) :=
  (C4_login_retry_budget "user@example.com" "pw" (fun _ => failEnv)
    "Login page returned no HTML" "Login page returned no HTML"
    "Login page returned no HTML"
    (by decide) (by decide) rfl rfl rfl).1

end GroheSpec
